import Mathlib

/-!
Verification of the secrets-manager resource handlers
(`resource_ibm_sm_iam_credentials_secret.go` and
`resource_ibm_sm_public_certificate.go`): a shallow embedding of the
lifecycle controller (create-waiter, read, update) and of the secret
mapper, with theorems checking the specification's claims.

Go pointers (`*string`, `*bool`, ...) are embedded as `Option`;
a Go run-time panic (failed interface type assertion, nil-pointer
dereference, out-of-range index) is embedded as the `none` of an outer
`Option`, or as a dedicated `crash` constructor.
-/

/-- An error returned by the SDK client.  `requestFailure` embeds
`bmxerror.RequestFailure` (an error carrying an HTTP status code);
`other` embeds every other `error` value. -/
inductive GoError where
  | requestFailure (statusCode : Nat) (msg : String)
  | other (msg : String)
deriving DecidableEq, Repr

/-- The message text carried by an error (Go `err.Error()`). -/
def GoError.message : GoError → String
  | .requestFailure _ m => m
  | .other m => m

/-- Embeds `core.DetailedResponse`: the transport response attached to an
SDK call; only the status code is inspected by the handlers. -/
structure DetailedResponse where
  statusCode : Nat
deriving DecidableEq, Repr

/-- Embeds `secretsmanagerv2.RotationPolicy`. -/
structure RotationPolicy where
  autoRotate : Option Bool := none
  interval : Option Int := none
  unit : Option String := none
  rotateKeys : Option Bool := none
deriving DecidableEq, Repr

/-- Embeds `secretsmanagerv2.IAMCredentialsSecret`: the remote record for
an IAM-credentials secret.  Pointer-valued Go fields are `Option`s;
`DateTime` fields are kept as their string rendering. -/
structure IAMCredentialsSecret where
  id : Option String := none
  createdBy : Option String := none
  createdAt : Option String := none
  crn : Option String := none
  customMetadata : Option (List (String × String)) := none
  description : Option String := none
  downloaded : Option Bool := none
  labels : Option (List String) := none
  locksTotal : Option Int := none
  name : Option String := none
  secretGroupID : Option String := none
  secretType : Option String := none
  state : Option Int := none
  stateDescription : Option String := none
  updatedAt : Option String := none
  versionsTotal : Option Int := none
  ttl : Option String := none
  accessGroups : Option (List String) := none
  apiKeyID : Option String := none
  serviceID : Option String := none
  serviceIdIsStatic : Option Bool := none
  reuseApiKey : Option Bool := none
  rotation : Option RotationPolicy := none
  nextRotationDate : Option String := none
  apiKey : Option String := none
deriving DecidableEq, Repr

/-- Embeds `secretsmanagerv2.ChallengeResource` (one DNS challenge of a
public-certificate order). -/
structure ChallengeResource where
  domain : Option String := none
  expiration : Option String := none
  status : Option String := none
  txtRecordName : Option String := none
  txtRecordValue : Option String := none
deriving DecidableEq, Repr

/-- Embeds `secretsmanagerv2.CertificateIssuanceInfo`. -/
structure CertificateIssuanceInfo where
  autoRotated : Option Bool := none
  challenges : Option (List ChallengeResource) := none
  dnsChallengeValidationTime : Option String := none
  errorCode : Option String := none
  errorMessage : Option String := none
  orderedOn : Option String := none
  state : Option Int := none
  stateDescription : Option String := none
deriving DecidableEq, Repr

/-- Embeds `secretsmanagerv2.CertificateValidity` (`NotBefore`/`NotAfter`
are `*DateTime` in the SDK, hence `Option` here). -/
structure CertificateValidity where
  notBefore : Option String := none
  notAfter : Option String := none
deriving DecidableEq, Repr

/-- Embeds `secretsmanagerv2.PublicCertificate`: the remote record for a
public certificate. -/
structure PublicCertificate where
  id : Option String := none
  createdBy : Option String := none
  createdAt : Option String := none
  crn : Option String := none
  downloaded : Option Bool := none
  locksTotal : Option Int := none
  name : Option String := none
  secretGroupID : Option String := none
  secretType : Option String := none
  state : Option Int := none
  stateDescription : Option String := none
  updatedAt : Option String := none
  versionsTotal : Option Int := none
  commonName : Option String := none
  issuanceInfo : Option CertificateIssuanceInfo := none
  keyAlgorithm : Option String := none
  ca : Option String := none
  dns : Option String := none
  bundleCerts : Option Bool := none
  rotation : Option RotationPolicy := none
  customMetadata : Option (List (String × String)) := none
  description : Option String := none
  labels : Option (List String) := none
  signingAlgorithm : Option String := none
  altNames : Option (List String) := none
  expirationDate : Option String := none
  issuer : Option String := none
  serialNumber : Option String := none
  validity : Option CertificateValidity := none
  certificate : Option String := none
  intermediate : Option String := none
  privateKey : Option String := none
deriving DecidableEq, Repr

/-- The outcome of one `GetSecret` / `GetSecretWithContext` call:
`(secretIntf, response, err)`.  `record = none` embeds a nil result
interface (the SDK returns a nil result whenever `err` is non-nil). -/
structure GetSecretOutcome (α : Type) where
  record : Option α
  response : Option DetailedResponse
  err : Option GoError
deriving DecidableEq, Repr

/-- The value produced by one invocation of a `Refresh` closure of the
waiter: either the Go `(interface{}, string, error)` triple, or `crash`
when the closure panics (nil-interface type assertion or nil-pointer
dereference). -/
inductive RefreshOutcome (α : Type) where
  | crash
  | triple (record : Option α) (state : String) (err : Option GoError)
deriving DecidableEq, Repr

/-- The state label of an error-free refresh triple, `none` otherwise. -/
def RefreshOutcome.okState {α : Type} : RefreshOutcome α → Option String
  | .triple _ st none => some st
  | _ => none

/-- Embeds the `Refresh` closure of `waitForIbmSmIamCredentialsSecretCreate`
(lines 258-272).  Note: the source performs the type assertion
`stateObjIntf.(*secretsmanagerv2.IAMCredentialsSecret)` before checking
`err`, so a nil result interface crashes before either error branch runs. -/
def waitRefreshIamCredentials (o : GetSecretOutcome IAMCredentialsSecret) :
    RefreshOutcome IAMCredentialsSecret :=
  match o.record with
  | none => .crash
  | some stateObj =>
    match o.err with
    | some e =>
      match e with
      | .requestFailure 404 m =>
        .triple none "" (some (.other
          ("The instance getSecretOptions does not exist anymore: " ++ m)))
      | _ => .triple none "" (some e)
    | none =>
      match stateObj.stateDescription with
      | none => .crash
      | some sd =>
        if sd = "destroyed" then
          .triple (some stateObj) sd (some (.other "The instance getSecretOptions failed"))
        else
          .triple (some stateObj) sd none

/-- Embeds the `Refresh` closure of `waitForIbmSmPublicCertificateCreate`
(lines 389-403); textually identical to the IAM-credentials one up to the
concrete record type. -/
def waitRefreshPublicCertificate (o : GetSecretOutcome PublicCertificate) :
    RefreshOutcome PublicCertificate :=
  match o.record with
  | none => .crash
  | some stateObj =>
    match o.err with
    | some e =>
      match e with
      | .requestFailure 404 m =>
        .triple none "" (some (.other
          ("The instance getSecretOptions does not exist anymore: " ++ m)))
      | _ => .triple none "" (some e)
    | none =>
      match stateObj.stateDescription with
      | none => .crash
      | some sd =>
        if sd = "destroyed" then
          .triple (some stateObj) sd (some (.other "The instance getSecretOptions failed"))
        else
          .triple (some stateObj) sd none

/-- The result of a waiter run. `refreshErr` propagates an error returned
by the refresh closure (provisioning failure, vanished resource, transport
error); `timeoutErr` is the distinct error produced when the
caller-supplied deadline elapses; `crashed` records a panic of the refresh
closure. -/
inductive WaitResult (α : Type) where
  | success (record : Option α)
  | refreshErr (state : String) (e : GoError)
  | timeoutErr
  | crashed
deriving DecidableEq, Repr

/-- Whether a waiter run returned successfully. -/
def WaitResult.isSuccess {α : Type} : WaitResult α → Bool
  | .success _ => true
  | _ => false

/-- Modelled from the spec: the poll loop of the terraform-plugin-sdk
`resource.StateChangeConf.WaitForState`, which is not part of this
repository's sources.  Per the spec (section 4.3 and the section 9
determinism note): poll `n` runs at time `delay + n * minTimeout`
(fixed minimum inter-poll delay, no backoff, first poll after `delay`);
an error returned by the refresh closure is terminal; a state in
`target` is terminal success; a state in `pending` continues polling;
any other label is treated as implicit success equivalent to a target
state; the run times out once the caller-supplied `timeout` elapses.
The second component of the result counts the polls performed.  `fuel`
bounds the recursion; callers pass `fuel = timeout`, which the timeout
check makes sufficient whenever `1 ≤ minTimeout`. -/
def waitLoopAux {α : Type} (refresh : Nat → RefreshOutcome α) (pending target : List String)
    (timeout delay minTimeout : Nat) : Nat → Nat → WaitResult α × Nat
  | 0, n => (.timeoutErr, n)
  | fuel + 1, n =>
    if timeout ≤ delay + n * minTimeout then (.timeoutErr, n)
    else
      match refresh n with
      | .crash => (.crashed, n + 1)
      | .triple _ st (some e) => (.refreshErr st e, n + 1)
      | .triple rec st none =>
        if st ∈ target then (.success rec, n + 1)
        else if st ∈ pending then
          waitLoopAux refresh pending target timeout delay minTimeout fuel (n + 1)
        else (.success rec, n + 1)

/-- Embeds `waitForIbmSmIamCredentialsSecretCreate` (lines 247-279):
`Pending = ["pre_activation"]`, `Target = ["active"]`, `Delay = 0`,
`MinTimeout = 5` seconds, `Timeout` supplied by the caller
(`d.Timeout(schema.TimeoutCreate)`).  `polls n` is the outcome of the
`GetSecret` call of the `n`-th poll. -/
def waitForIbmSmIamCredentialsSecretCreate
    (polls : Nat → GetSecretOutcome IAMCredentialsSecret) (timeoutCreate : Nat) :
    WaitResult IAMCredentialsSecret × Nat :=
  waitLoopAux (fun n => waitRefreshIamCredentials (polls n))
    ["pre_activation"] ["active"] timeoutCreate 0 5 timeoutCreate 0

/-- Embeds `waitForIbmSmPublicCertificateCreate` (lines 378-410), with the
same `StateChangeConf` parameters as the IAM-credentials waiter. -/
def waitForIbmSmPublicCertificateCreate
    (polls : Nat → GetSecretOutcome PublicCertificate) (timeoutCreate : Nat) :
    WaitResult PublicCertificate × Nat :=
  waitLoopAux (fun n => waitRefreshPublicCertificate (polls n))
    ["pre_activation"] ["active"] timeoutCreate 0 5 timeoutCreate 0

/-- The schedule of poll instants of a waiter run: poll `k` runs at
`delay + k * minTimeout` (source: `Delay: 0`, `MinTimeout: 5`). -/
def runPollTimes (delay minTimeout count : Nat) : List Nat :=
  (List.range count).map fun k => delay + k * minTimeout

/-- The create timeout declared for the public-certificate resource
(`Timeouts: Create: 35 minutes`, line 336), in seconds. -/
def publicCertificateCreateTimeout : Nat := 35 * 60

/-- Embeds Go `strings.Split` for a single-character separator: the
substrings of `s` between occurrences of `sep`, in order. -/
def goSplit (sep : Char) (s : String) : List String :=
  (s.data.splitOn sep).map fun cs => String.mk cs

/-- Embeds the positional parse `id := strings.Split(d.Id(), "/");
region, instanceId, secretId := id[0], id[1], id[2]` performed by
Read, Update and Delete of both resources (for example lines 287-290 and
634-637); `none` embeds the out-of-range panic on a key with fewer than
three segments. -/
def parseCompositeId (id : String) : Option (String × String × String) :=
  match goSplit '/' id with
  | region :: instanceId :: secretId :: _ => some (region, instanceId, secretId)
  | _ => none

/-- A value stored in one of the `map[string]interface{}` results of the
`...ToMap` converters: a boolean, string or integer leaf, or the list of
challenge maps stored under the `challenges` key. -/
inductive MapVal where
  | boolV (b : Bool)
  | strV (s : String)
  | intV (i : Int)
  | challengeListV (xs : List (List (String × MapVal)))

/-- The singleton association-list entry `[(key, v)]` when `v` is
present, embedding a conditional `modelMap[key] = ...` assignment. -/
def optEntry (key : String) : Option MapVal → List (String × MapVal)
  | none => []
  | some v => [(key, v)]

/-- Embeds `resourceIbmSmPublicCertificateChallengeResourceToMap`
(lines 819-837). -/
def resourceIbmSmPublicCertificateChallengeResourceToMap (model : ChallengeResource) :
    List (String × MapVal) :=
  optEntry "domain" (model.domain.map .strV) ++
  optEntry "expiration" (model.expiration.map .strV) ++
  optEntry "status" (model.status.map .strV) ++
  optEntry "txt_record_name" (model.txtRecordName.map .strV) ++
  optEntry "txt_record_value" (model.txtRecordValue.map .strV)

/-- Embeds `resourceIbmSmPublicCertificateCertificateIssuanceInfoToMap`
(lines 782-817): the `challenges` entry is written only when the remote
`Challenges` slice is non-nil, and maps the slice 1:1 in order. -/
def resourceIbmSmPublicCertificateCertificateIssuanceInfoToMap
    (model : CertificateIssuanceInfo) : List (String × MapVal) :=
  optEntry "auto_rotated" (model.autoRotated.map .boolV) ++
  optEntry "challenges" (model.challenges.map fun cs =>
    .challengeListV (cs.map resourceIbmSmPublicCertificateChallengeResourceToMap)) ++
  optEntry "dns_challenge_validation_time" (model.dnsChallengeValidationTime.map .strV) ++
  optEntry "error_code" (model.errorCode.map .strV) ++
  optEntry "error_message" (model.errorMessage.map .strV) ++
  optEntry "ordered_on" (model.orderedOn.map .strV) ++
  optEntry "state" (model.state.map .intV) ++
  optEntry "state_description" (model.stateDescription.map .strV)

/-- Embeds `resourceIbmSmPublicCertificateCertificateValidityToMap`
(lines 839-844): `NotBefore.String()` and `NotAfter.String()` are
dereferenced unconditionally, so a nil date crashes (`none`). -/
def resourceIbmSmPublicCertificateCertificateValidityToMap (model : CertificateValidity) :
    Option (List (String × MapVal)) :=
  match model.notBefore, model.notAfter with
  | some nb, some na => some [("not_before", .strV nb), ("not_after", .strV na)]
  | _, _ => none

/-- Embeds `resourceIbmSmIamCredentialsSecretRotationPolicyToMap`
(lines 567-583): the input interface is type-asserted to
`*RotationPolicy` first, so a nil interface crashes (`none`). -/
def resourceIbmSmIamCredentialsSecretRotationPolicyToMap :
    Option RotationPolicy → Option (List (String × MapVal))
  | none => none
  | some model => some (
      optEntry "auto_rotate" (model.autoRotate.map .boolV) ++
      optEntry "interval" (model.interval.map .intV) ++
      optEntry "unit" (model.unit.map .strV) ++
      optEntry "rotate_keys" (model.rotateKeys.map .boolV))

/-- Embeds `resourceIbmSmPublicCertificateRotationPolicyToMap`
(lines 763-780), identical to the IAM-credentials converter. -/
def resourceIbmSmPublicCertificateRotationPolicyToMap :
    Option RotationPolicy → Option (List (String × MapVal))
  | none => none
  | some model => some (
      optEntry "auto_rotate" (model.autoRotate.map .boolV) ++
      optEntry "interval" (model.interval.map .intV) ++
      optEntry "unit" (model.unit.map .strV) ++
      optEntry "rotate_keys" (model.rotateKeys.map .boolV))

/-- One `d.Set` call of a Read handler: `guarded` embeds
`if err = d.Set(field, ...); err != nil { return diag.FromErr(fmt.Errorf("Error setting <errLabel>: ...")) }`
(the message label is recorded verbatim, even where the source names a
different field than the one being set); `unguarded` embeds a bare
`d.Set(field, ...)` whose error is ignored; `crash` embeds a panic
raised at this point of the sequence (nil type assertion or nil
dereference inside a nested converter). -/
inductive FieldStep where
  | guarded (field : String) (errLabel : String)
  | unguarded (field : String)
  | crash
deriving DecidableEq, Repr

/-- Executes a sequence of `d.Set` steps.  `setOk f` tells whether the
configuration store accepts the value for field `f`.  Returns the list
of fields whose `d.Set` was executed together with the error of the
first failing guarded step, or `none` on a crash step. -/
def runFieldSteps (setOk : String → Bool) : List FieldStep → Option (List String × Option String)
  | [] => some ([], none)
  | .guarded f lbl :: rest =>
    if setOk f then
      match runFieldSteps setOk rest with
      | none => none
      | some (applied, e) => some (f :: applied, e)
    else some ([f], some ("Error setting " ++ lbl))
  | .unguarded f :: rest =>
    match runFieldSteps setOk rest with
    | none => none
    | some (applied, e) => some (f :: applied, e)
  | .crash :: _ => none

/-- The first guarded step of the sequence that `setOk` rejects:
its error label together with the fields set before (and including) it. -/
def firstFieldFailure (setOk : String → Bool) : List FieldStep → Option (String × List String)
  | [] => none
  | .guarded f lbl :: rest =>
    if setOk f then (firstFieldFailure setOk rest).map fun p => (p.1, f :: p.2)
    else some (lbl, [f])
  | .unguarded f :: rest => (firstFieldFailure setOk rest).map fun p => (p.1, f :: p.2)
  | .crash :: _ => none

/-- All fields whose `d.Set` a step sequence would execute when no set
fails. -/
def stepFields : List FieldStep → List String
  | [] => []
  | .guarded f _ :: rest => f :: stepFields rest
  | .unguarded f :: rest => f :: stepFields rest
  | .crash :: rest => stepFields rest

/-- The sequence of `d.Set` steps performed by
`resourceIbmSmIamCredentialsSecretRead` after a successful fetch
(lines 309-399), in source order.  `ttl` and `api_key` carry the error
label `signing_algorithm` exactly as in the source (lines 366 and 398);
`custom_metadata` is set without an error check (line 328); the nested
rotation conversion crashes on a nil rotation interface before the
`rotation` field is considered. -/
def iamReadSteps (secret : IAMCredentialsSecret) : List FieldStep :=
  [.guarded "secret_id" "secret_id",
   .guarded "instance_id" "instance_id",
   .guarded "region" "region",
   .guarded "created_by" "created_by",
   .guarded "created_at" "created_at",
   .guarded "crn" "crn"] ++
  (match secret.customMetadata with
   | some _ => [.unguarded "custom_metadata"]
   | none => []) ++
  [.guarded "description" "description",
   .guarded "downloaded" "downloaded"] ++
  (match secret.labels with
   | some _ => [.guarded "labels" "labels"]
   | none => []) ++
  [.guarded "locks_total" "locks_total",
   .guarded "name" "name",
   .guarded "secret_group_id" "secret_group_id",
   .guarded "secret_type" "secret_type",
   .guarded "state" "state",
   .guarded "state_description" "state_description",
   .guarded "updated_at" "updated_at",
   .guarded "versions_total" "versions_total",
   .guarded "ttl" "signing_algorithm"] ++
  (match secret.accessGroups with
   | some _ => [.guarded "access_groups" "access_groups"]
   | none => []) ++
  [.guarded "api_key_id" "api_key_id",
   .guarded "service_id" "service_id",
   .guarded "service_id_is_static" "service_id_is_static",
   .guarded "reuse_api_key" "reuse_api_key"] ++
  (match resourceIbmSmIamCredentialsSecretRotationPolicyToMap secret.rotation with
   | none => [.crash]
   | some rotationMap =>
     if rotationMap.length > 0 then [.guarded "rotation" "rotation"] else []) ++
  [.guarded "next_rotation_date" "next_rotation_date",
   .guarded "api_key" "signing_algorithm"]

/-- The sequence of `d.Set` steps performed by
`resourceIbmSmPublicCertificateRead` after a successful fetch
(lines 440-562), in source order.  `issuance_info`, `labels`,
`alt_names`, `custom_metadata` and `validity` are set only when the
remote value is non-nil; `custom_metadata` is set without an error
check (line 517); the rotation conversion crashes on a nil rotation
interface, and the validity conversion crashes on a nil date. -/
def certReadSteps (secret : PublicCertificate) : List FieldStep :=
  [.guarded "secret_id" "secret_id",
   .guarded "instance_id" "instance_id",
   .guarded "region" "region",
   .guarded "created_by" "created_by",
   .guarded "created_at" "created_at",
   .guarded "crn" "crn",
   .guarded "downloaded" "downloaded",
   .guarded "locks_total" "locks_total",
   .guarded "name" "name",
   .guarded "secret_group_id" "secret_group_id",
   .guarded "secret_type" "secret_type",
   .guarded "state" "state",
   .guarded "state_description" "state_description",
   .guarded "updated_at" "updated_at",
   .guarded "versions_total" "versions_total",
   .guarded "common_name" "common_name"] ++
  (match secret.issuanceInfo with
   | some _ => [.guarded "issuance_info" "issuance_info"]
   | none => []) ++
  [.guarded "key_algorithm" "key_algorithm",
   .guarded "ca" "ca",
   .guarded "dns" "dns",
   .guarded "bundle_certs" "bundle_certs"] ++
  (match resourceIbmSmPublicCertificateRotationPolicyToMap secret.rotation with
   | none => [.crash]
   | some _ => [.guarded "rotation" "rotation"]) ++
  (match secret.customMetadata with
   | some _ => [.unguarded "custom_metadata"]
   | none => []) ++
  [.guarded "description" "description"] ++
  (match secret.labels with
   | some _ => [.guarded "labels" "labels"]
   | none => []) ++
  [.guarded "signing_algorithm" "signing_algorithm"] ++
  (match secret.altNames with
   | some _ => [.guarded "alt_names" "alt_names"]
   | none => []) ++
  [.guarded "expiration_date" "expiration_date",
   .guarded "issuer" "issuer",
   .guarded "serial_number" "serial_number"] ++
  (match secret.validity with
   | none => []
   | some v =>
     match resourceIbmSmPublicCertificateCertificateValidityToMap v with
     | none => [.crash]
     | some _ => [.guarded "validity" "validity"]) ++
  [.guarded "certificate" "certificate",
   .guarded "intermediate" "intermediate",
   .guarded "private_key" "private_key"]

/-- The observable outcome of one Read call: the identity stored
afterwards (`""` after `d.SetId("")`), the fields whose `d.Set` ran,
and the error returned, if any. -/
structure ReadOutcome where
  newId : String
  applied : List String
  error : Option String
deriving DecidableEq, Repr

/-- Embeds `resourceIbmSmIamCredentialsSecretRead` (lines 281-402):
split the composite key (panic if it has fewer than three segments),
fetch the record; on an error with a 404 response clear the identity and
return no error with no field updates; on any other error surface it;
otherwise type-assert the record and run the field-set sequence. -/
def resourceIbmSmIamCredentialsSecretRead (oldId : String)
    (get : GetSecretOutcome IAMCredentialsSecret) (setOk : String → Bool) :
    Option ReadOutcome :=
  match parseCompositeId oldId with
  | none => none
  | some _ =>
    match get.err with
    | some e =>
      if (match get.response with
          | some r => r.statusCode == 404
          | none => false) then
        some { newId := "", applied := [], error := none }
      else
        some { newId := oldId, applied := [],
               error := some ("GetSecretWithContext failed " ++ e.message) }
    | none =>
      match get.record with
      | none => none
      | some secret =>
        match runFieldSteps setOk (iamReadSteps secret) with
        | none => none
        | some (applied, e) => some { newId := oldId, applied := applied, error := e }

/-- Embeds `resourceIbmSmPublicCertificateRead` (lines 412-563); the
surrounding control flow is textually identical to the IAM-credentials
Read. -/
def resourceIbmSmPublicCertificateRead (oldId : String)
    (get : GetSecretOutcome PublicCertificate) (setOk : String → Bool) :
    Option ReadOutcome :=
  match parseCompositeId oldId with
  | none => none
  | some _ =>
    match get.err with
    | some e =>
      if (match get.response with
          | some r => r.statusCode == 404
          | none => false) then
        some { newId := "", applied := [], error := none }
      else
        some { newId := oldId, applied := [],
               error := some ("GetSecretWithContext failed " ++ e.message) }
    | none =>
      match get.record with
      | none => none
      | some secret =>
        match runFieldSteps setOk (certReadSteps secret) with
        | none => none
        | some (applied, e) => some { newId := oldId, applied := applied, error := e }

/-- The Terraform-side rotation block
(`d.Get("rotation").([]interface{})[0].(map[string]interface{})`). -/
structure RotationBlock where
  autoRotate : Option Bool := none
  interval : Option Int := none
  unit : Option String := none
  rotateKeys : Option Bool := none
deriving DecidableEq, Repr

/-- Embeds `resourceIbmSmIamCredentialsSecretMapToRotationPolicy`
(lines 550-565).  The source's error result is always nil, so only the
policy value is returned; the `unit` entry is copied only when non-nil
and non-empty. -/
def resourceIbmSmIamCredentialsSecretMapToRotationPolicy (modelMap : RotationBlock) :
    RotationPolicy :=
  { autoRotate := modelMap.autoRotate
    interval := modelMap.interval
    unit := match modelMap.unit with
            | some u => if u = "" then none else some u
            | none => none
    rotateKeys := modelMap.rotateKeys }

/-- Embeds `resourceIbmSmPublicCertificateMapToRotationPolicy`
(lines 715-730), identical to the IAM-credentials converter. -/
def resourceIbmSmPublicCertificateMapToRotationPolicy (modelMap : RotationBlock) :
    RotationPolicy :=
  { autoRotate := modelMap.autoRotate
    interval := modelMap.interval
    unit := match modelMap.unit with
            | some u => if u = "" then none else some u
            | none => none
    rotateKeys := modelMap.rotateKeys }

/-- The configuration view seen by an Update handler: the `HasChange`
oracle per field name and the current values of the updatable fields. -/
structure TfUpdateConfig where
  hasChange : String → Bool
  name : String := ""
  description : String := ""
  ttl : String := ""
  labels : List String := []
  customMetadata : List (String × String) := []
  rotation : List RotationBlock := []

/-- Embeds `secretsmanagerv2.IAMCredentialsSecretMetadataPatch`; a field
is `some` exactly when the handler assigned it, and `AsPatch` serializes
exactly the assigned fields. -/
structure IAMCredentialsSecretMetadataPatch where
  name : Option String := none
  description : Option String := none
  labels : Option (List String) := none
  customMetadata : Option (List (String × String)) := none
  ttl : Option String := none
  rotation : Option RotationPolicy := none
deriving DecidableEq, Repr

/-- Embeds `secretsmanagerv2.SecretMetadataPatch` as used by the
public-certificate Update (no TTL field). -/
structure SecretMetadataPatch where
  name : Option String := none
  description : Option String := none
  labels : Option (List String) := none
  customMetadata : Option (List (String × String)) := none
  rotation : Option RotationPolicy := none
deriving DecidableEq, Repr

/-- The remote effect of one Update call: `patchCall` is the single
`UpdateSecretMetadataWithContext` request carrying the patch, `noCall`
means no remote patch call was issued, `crash` embeds the
index-out-of-range panic on `d.Get("rotation").([]interface{})[0]` when
the rotation list is empty. -/
inductive UpdateOutcome (π : Type) where
  | crash
  | patchCall (patch : π)
  | noCall
deriving DecidableEq, Repr

/-- Embeds `resourceIbmSmIamCredentialsSecretUpdate` (lines 404-469,
up to the remote call): each tracked field is added to the patch exactly
when `HasChange` reports it changed, and the patch request is issued
only when at least one tracked field changed. -/
def resourceIbmSmIamCredentialsSecretUpdate (cfg : TfUpdateConfig) :
    UpdateOutcome IAMCredentialsSecretMetadataPatch :=
  let st0 : IAMCredentialsSecretMetadataPatch × Bool := ({}, false)
  let st1 := if cfg.hasChange "name" then
    ({ st0.1 with name := some cfg.name }, true) else st0
  let st2 := if cfg.hasChange "description" then
    ({ st1.1 with description := some cfg.description }, true) else st1
  let st3 := if cfg.hasChange "labels" then
    ({ st2.1 with labels := some cfg.labels }, true) else st2
  let st4 := if cfg.hasChange "custom_metadata" then
    ({ st3.1 with customMetadata := some cfg.customMetadata }, true) else st3
  let st5 := if cfg.hasChange "ttl" then
    ({ st4.1 with ttl := some cfg.ttl }, true) else st4
  if cfg.hasChange "rotation" then
    match cfg.rotation with
    | [] => .crash
    | rm :: _ =>
      .patchCall { st5.1 with
        rotation := some (resourceIbmSmIamCredentialsSecretMapToRotationPolicy rm) }
  else
    if st5.2 then .patchCall st5.1 else .noCall

/-- Embeds `resourceIbmSmPublicCertificateUpdate` (lines 565-626, up to
the remote call); tracked fields are name, description, labels,
custom_metadata and rotation. -/
def resourceIbmSmPublicCertificateUpdate (cfg : TfUpdateConfig) :
    UpdateOutcome SecretMetadataPatch :=
  let st0 : SecretMetadataPatch × Bool := ({}, false)
  let st1 := if cfg.hasChange "name" then
    ({ st0.1 with name := some cfg.name }, true) else st0
  let st2 := if cfg.hasChange "description" then
    ({ st1.1 with description := some cfg.description }, true) else st1
  let st3 := if cfg.hasChange "labels" then
    ({ st2.1 with labels := some cfg.labels }, true) else st2
  let st4 := if cfg.hasChange "custom_metadata" then
    ({ st3.1 with customMetadata := some cfg.customMetadata }, true) else st3
  if cfg.hasChange "rotation" then
    match cfg.rotation with
    | [] => .crash
    | rm :: _ =>
      .patchCall { st4.1 with
        rotation := some (resourceIbmSmPublicCertificateMapToRotationPolicy rm) }
  else
    if st4.2 then .patchCall st4.1 else .noCall

/-- An IAM-credentials record observed in the `suspended` state. -/
def suspendedSecretI : IAMCredentialsSecret := { stateDescription := some "suspended" }

/-- A poll stream that always observes `suspendedSecretI`. -/
def suspendedPollsI : Nat → GetSecretOutcome IAMCredentialsSecret :=
  fun _ => { record := some suspendedSecretI, response := none, err := none }

/-- A public-certificate record observed in the `suspended` state. -/
def suspendedSecretC : PublicCertificate := { stateDescription := some "suspended" }

/-- A poll stream that always observes `suspendedSecretC`. -/
def suspendedPollsC : Nat → GetSecretOutcome PublicCertificate :=
  fun _ => { record := some suspendedSecretC, response := none, err := none }

/-- An IAM-credentials record observed in the `pre_activation` state. -/
def pendingSecretI : IAMCredentialsSecret := { stateDescription := some "pre_activation" }

/-- A poll stream that always observes `pendingSecretI`. -/
def pendingPollsI : Nat → GetSecretOutcome IAMCredentialsSecret :=
  fun _ => { record := some pendingSecretI, response := none, err := none }

/-- A public-certificate record observed in the `pre_activation` state. -/
def pendingSecretC : PublicCertificate := { stateDescription := some "pre_activation" }

/-- A poll stream that always observes `pendingSecretC`. -/
def pendingPollsC : Nat → GetSecretOutcome PublicCertificate :=
  fun _ => { record := some pendingSecretC, response := none, err := none }

/-- An IAM-credentials record observed in the `active` state. -/
def activeSecretI : IAMCredentialsSecret := { stateDescription := some "active" }

/-- A public-certificate record observed in the `active` state. -/
def activeSecretC : PublicCertificate := { stateDescription := some "active" }

/-- An IAM-credentials record observed in the `destroyed` state. -/
def destroyedSecretI : IAMCredentialsSecret := { stateDescription := some "destroyed" }

/-- A poll stream that always observes `destroyedSecretI`. -/
def destroyedPollsI : Nat → GetSecretOutcome IAMCredentialsSecret :=
  fun _ => { record := some destroyedSecretI, response := none, err := none }

/-- A public-certificate record observed in the `destroyed` state. -/
def destroyedSecretC : PublicCertificate := { stateDescription := some "destroyed" }

/-- A poll stream that always observes `destroyedSecretC`. -/
def destroyedPollsC : Nat → GetSecretOutcome PublicCertificate :=
  fun _ => { record := some destroyedSecretC, response := none, err := none }

/-- IAM-credentials poll stream observing pre_activation twice and then
active records. -/
def stagedPollsI : Nat → GetSecretOutcome IAMCredentialsSecret := fun n =>
  if n < 2 then { record := some pendingSecretI, response := none, err := none }
  else { record := some activeSecretI, response := none, err := none }

/-- Public-certificate poll stream observing pre_activation twice and
then active records. -/
def stagedPollsC : Nat → GetSecretOutcome PublicCertificate := fun n =>
  if n < 2 then { record := some pendingSecretC, response := none, err := none }
  else { record := some activeSecretC, response := none, err := none }

/-- An IAM-credentials record carrying custom metadata and an empty
rotation policy, used to exercise the unguarded `custom_metadata` set. -/
def cmSecretI : IAMCredentialsSecret :=
  { customMetadata := some [("k", "v")], rotation := some {} }

/-- The fetch outcome delivering `cmSecretI`. -/
def cmGetI : GetSecretOutcome IAMCredentialsSecret :=
  { record := some cmSecretI, response := none, err := none }

/-- A configuration store that rejects exactly the `custom_metadata`
field. -/
def cmSetOk : String → Bool := fun f => f != "custom_metadata"

/-- Issuance info whose remote challenge list is present but empty. -/
def emptyChallengesInfo : CertificateIssuanceInfo := { challenges := some [] }

/-- An IAM-credentials record whose labels list is present but empty. -/
def emptyLabelsSecretI : IAMCredentialsSecret :=
  { labels := some [], rotation := some {} }

/-- Inversion for `okState`: an error-free state observation is exactly a
`triple` with no error. -/
theorem RefreshOutcome.okState_eq_some_iff {α : Type} (rf : RefreshOutcome α) (st : String) :
    rf.okState = some st ↔ ∃ rec, rf = RefreshOutcome.triple rec st none := by
  cases rf with
  | crash => simp [RefreshOutcome.okState]
  | triple rec s e =>
    cases e with
    | none =>
      simp only [RefreshOutcome.okState, Option.some.injEq, RefreshOutcome.triple.injEq]
      constructor
      · intro h; exact ⟨rec, rfl, h, trivial⟩
      · rintro ⟨r, _, h, _⟩; exact h
    | some e => simp [RefreshOutcome.okState]

/-- The waiter loop returns success exactly when some performed poll's
refresh yields an error-free state label other than the pending label. -/
theorem waitLoopAux_success_iff {α : Type} (refresh : Nat → RefreshOutcome α) (timeout : Nat) :
    ∀ fuel n,
      ((waitLoopAux refresh ["pre_activation"] ["active"] timeout 0 5 fuel n).1.isSuccess = true ↔
        ∃ k, n ≤ k ∧ k < (waitLoopAux refresh ["pre_activation"] ["active"] timeout 0 5 fuel n).2 ∧
          (refresh k).okState ≠ none ∧ (refresh k).okState ≠ some "pre_activation") := by
  intro fuel
  induction fuel with
  | zero =>
    intro n
    simp only [waitLoopAux, WaitResult.isSuccess]
    constructor
    · intro h; cases h
    · rintro ⟨k, hk1, hk2, -, -⟩; omega
  | succ fuel ih =>
    intro n
    by_cases htime : timeout ≤ 0 + n * 5
    · simp only [waitLoopAux, if_pos htime, WaitResult.isSuccess]
      constructor
      · intro h; cases h
      · rintro ⟨k, hk1, hk2, -, -⟩; omega
    · rcases hr : refresh n with - | ⟨rec, st, err⟩
      · simp only [waitLoopAux, if_neg htime, hr, WaitResult.isSuccess]
        constructor
        · intro h; cases h
        · rintro ⟨k, hk1, hk2, hsome, -⟩
          have hkn : k = n := by omega
          subst hkn
          rw [hr] at hsome
          exact (hsome rfl).elim
      · rcases err with - | e
        · by_cases hact : st = "active"
          · subst hact
            simp only [waitLoopAux, if_neg htime, hr]
            have hmem : ("active" : String) ∈ ["active"] := by simp
            simp only [if_pos hmem, WaitResult.isSuccess, true_iff]
            exact ⟨n, Nat.le_refl n, by omega,
              by rw [hr]; simp [RefreshOutcome.okState],
              by rw [hr]; simp [RefreshOutcome.okState]⟩
          · by_cases hpre : st = "pre_activation"
            · subst hpre
              have hmem1 : ¬ ("pre_activation" : String) ∈ ["active"] := by simp
              have hmem2 : ("pre_activation" : String) ∈ ["pre_activation"] := by simp
              simp only [waitLoopAux, if_neg htime, hr, if_neg hmem1, if_pos hmem2]
              rw [ih (n + 1)]
              constructor
              · rintro ⟨k, hk1, hk2, h3, h4⟩; exact ⟨k, by omega, hk2, h3, h4⟩
              · rintro ⟨k, hk1, hk2, h3, h4⟩
                refine ⟨k, ?_, hk2, h3, h4⟩
                rcases Nat.eq_or_lt_of_le hk1 with h | h
                · exfalso; subst h; rw [hr] at h4; simp [RefreshOutcome.okState] at h4
                · omega
            · have hmem1 : ¬ st ∈ ["active"] := by simp [hact]
              have hmem2 : ¬ st ∈ ["pre_activation"] := by simp [hpre]
              simp only [waitLoopAux, if_neg htime, hr, if_neg hmem1, if_neg hmem2,
                WaitResult.isSuccess, true_iff]
              exact ⟨n, Nat.le_refl n, by omega,
                by rw [hr]; simp [RefreshOutcome.okState],
                by rw [hr]; simp [RefreshOutcome.okState, hpre]⟩
        · simp only [waitLoopAux, if_neg htime, hr, WaitResult.isSuccess]
          constructor
          · intro h; cases h
          · rintro ⟨k, hk1, hk2, hsome, -⟩
            have hkn : k = n := by omega
            subst hkn
            rw [hr] at hsome
            simp [RefreshOutcome.okState] at hsome

/-- If every poll observes the pending label, the waiter loop ends with
the timeout error. -/
theorem waitLoopAux_timeout_of_all_pending {α : Type} (refresh : Nat → RefreshOutcome α)
    (timeout : Nat) (h : ∀ k, (refresh k).okState = some "pre_activation") :
    ∀ fuel n,
      (waitLoopAux refresh ["pre_activation"] ["active"] timeout 0 5 fuel n).1 =
        WaitResult.timeoutErr := by
  intro fuel
  induction fuel with
  | zero => intro n; rfl
  | succ fuel ih =>
    intro n
    by_cases htime : timeout ≤ 0 + n * 5
    · simp only [waitLoopAux, if_pos htime]
    · obtain ⟨rec, hrec⟩ := (RefreshOutcome.okState_eq_some_iff _ _).mp (h n)
      have hmem1 : ¬ ("pre_activation" : String) ∈ ["active"] := by simp
      have hmem2 : ("pre_activation" : String) ∈ ["pre_activation"] := by simp
      simp only [waitLoopAux, if_neg htime, hrec, if_neg hmem1, if_pos hmem2]
      exact ih (n + 1)

/-- A prefix of polls observing the pending label within the deadline is
skipped by the waiter loop. -/
theorem waitLoopAux_skip_pending {α : Type} (refresh : Nat → RefreshOutcome α) (timeout : Nat) :
    ∀ k fuel n, (∀ j, j < k → (refresh (n + j)).okState = some "pre_activation") →
      (n + k) * 5 ≤ timeout →
      waitLoopAux refresh ["pre_activation"] ["active"] timeout 0 5 (fuel + k) n =
        waitLoopAux refresh ["pre_activation"] ["active"] timeout 0 5 fuel (n + k) := by
  intro k
  induction k with
  | zero => intro fuel n _ _; rfl
  | succ k ih =>
    intro fuel n hpend hlt
    obtain ⟨rec, hrec⟩ := (RefreshOutcome.okState_eq_some_iff _ _).mp
      (by simpa using hpend 0 (Nat.succ_pos k))
    have htime : ¬ timeout ≤ 0 + n * 5 := by omega
    have hmem1 : ¬ ("pre_activation" : String) ∈ ["active"] := by simp
    have hmem2 : ("pre_activation" : String) ∈ ["pre_activation"] := by simp
    have hstep : waitLoopAux refresh ["pre_activation"] ["active"] timeout 0 5 (fuel + k + 1) n =
        waitLoopAux refresh ["pre_activation"] ["active"] timeout 0 5 (fuel + k) (n + 1) := by
      simp only [waitLoopAux, if_neg htime, hrec, if_neg hmem1, if_pos hmem2]
    have hrest := ih fuel (n + 1)
      (by intro j hj
          have h2 := hpend (j + 1) (by omega)
          have h3 : n + 1 + j = n + (j + 1) := by omega
          rw [h3]
          exact h2)
      (by omega)
    have harr : n + 1 + k = n + (k + 1) := by omega
    rw [show fuel + (k + 1) = fuel + k + 1 from by omega, hstep, hrest, harr]

/-- After a run of pending polls strictly inside the deadline, the waiter
run equals the loop restarted at poll `k` with the remaining fuel. -/
theorem waitLoop_run_reaches {α : Type} (refresh : Nat → RefreshOutcome α) (timeout k : Nat)
    (hk : k * 5 < timeout)
    (hpend : ∀ j, j < k → (refresh j).okState = some "pre_activation") :
    waitLoopAux refresh ["pre_activation"] ["active"] timeout 0 5 timeout 0 =
      waitLoopAux refresh ["pre_activation"] ["active"] timeout 0 5 (timeout - k) k := by
  have h := waitLoopAux_skip_pending refresh timeout k (timeout - k) 0
    (by intro j hj; simpa using hpend j hj) (by omega)
  rw [show timeout - k + k = timeout from by omega] at h
  simpa using h

/-- A poll yielding an error-free non-pending label after a pending
prefix ends the waiter run in success with exactly `k + 1` polls. -/
theorem waitLoop_run_terminal_success {α : Type} (refresh : Nat → RefreshOutcome α)
    (timeout k : Nat) (rec : Option α) (st : String)
    (hk : k * 5 < timeout)
    (hpend : ∀ j, j < k → (refresh j).okState = some "pre_activation")
    (hterm : refresh k = RefreshOutcome.triple rec st none)
    (hst : st ≠ "pre_activation") :
    waitLoopAux refresh ["pre_activation"] ["active"] timeout 0 5 timeout 0 =
      (WaitResult.success rec, k + 1) := by
  rw [waitLoop_run_reaches refresh timeout k hk hpend]
  obtain ⟨m, hm⟩ : ∃ m, timeout - k = m + 1 := ⟨timeout - k - 1, by omega⟩
  rw [hm]
  have htime : ¬ timeout ≤ 0 + k * 5 := by omega
  by_cases hact : st = "active"
  · subst hact
    have hmem : ("active" : String) ∈ ["active"] := by simp
    simp only [waitLoopAux, if_neg htime, hterm, if_pos hmem]
  · have hmem1 : ¬ st ∈ ["active"] := by simp [hact]
    have hmem2 : ¬ st ∈ ["pre_activation"] := by simp [hst]
    simp only [waitLoopAux, if_neg htime, hterm, if_neg hmem1, if_neg hmem2]

/-- A poll whose refresh returns an error after a pending prefix ends
the waiter run immediately with that error and exactly `k + 1` polls. -/
theorem waitLoop_run_terminal_error {α : Type} (refresh : Nat → RefreshOutcome α)
    (timeout k : Nat) (rec : Option α) (st : String) (e : GoError)
    (hk : k * 5 < timeout)
    (hpend : ∀ j, j < k → (refresh j).okState = some "pre_activation")
    (hterm : refresh k = RefreshOutcome.triple rec st (some e)) :
    waitLoopAux refresh ["pre_activation"] ["active"] timeout 0 5 timeout 0 =
      (WaitResult.refreshErr st e, k + 1) := by
  rw [waitLoop_run_reaches refresh timeout k hk hpend]
  obtain ⟨m, hm⟩ : ∃ m, timeout - k = m + 1 := ⟨timeout - k - 1, by omega⟩
  rw [hm]
  have htime : ¬ timeout ≤ 0 + k * 5 := by omega
  simp only [waitLoopAux, if_neg htime, hterm]

/-- An error-free poll outcome with a non-`destroyed` label refreshes to
an error-free triple carrying the fetched record and that label. -/
theorem waitRefreshIamCredentials_ok (o : GetSecretOutcome IAMCredentialsSecret)
    (obj : IAMCredentialsSecret) (st : String)
    (hrec : o.record = some obj) (herr : o.err = none)
    (hst : obj.stateDescription = some st) (hd : st ≠ "destroyed") :
    waitRefreshIamCredentials o = RefreshOutcome.triple (some obj) st none := by
  simp [waitRefreshIamCredentials, hrec, herr, hst, hd]

/-- Certificate analogue of `waitRefreshIamCredentials_ok`. -/
theorem waitRefreshPublicCertificate_ok (o : GetSecretOutcome PublicCertificate)
    (obj : PublicCertificate) (st : String)
    (hrec : o.record = some obj) (herr : o.err = none)
    (hst : obj.stateDescription = some st) (hd : st ≠ "destroyed") :
    waitRefreshPublicCertificate o = RefreshOutcome.triple (some obj) st none := by
  simp [waitRefreshPublicCertificate, hrec, herr, hst, hd]

/-- An error-free poll outcome with the `destroyed` label refreshes to a
triple carrying the provisioning-failure error. -/
theorem waitRefreshIamCredentials_destroyed (o : GetSecretOutcome IAMCredentialsSecret)
    (obj : IAMCredentialsSecret)
    (hrec : o.record = some obj) (herr : o.err = none)
    (hst : obj.stateDescription = some "destroyed") :
    waitRefreshIamCredentials o = RefreshOutcome.triple (some obj) "destroyed"
      (some (GoError.other "The instance getSecretOptions failed")) := by
  simp [waitRefreshIamCredentials, hrec, herr, hst]

/-- Certificate analogue of `waitRefreshIamCredentials_destroyed`. -/
theorem waitRefreshPublicCertificate_destroyed (o : GetSecretOutcome PublicCertificate)
    (obj : PublicCertificate)
    (hrec : o.record = some obj) (herr : o.err = none)
    (hst : obj.stateDescription = some "destroyed") :
    waitRefreshPublicCertificate o = RefreshOutcome.triple (some obj) "destroyed"
      (some (GoError.other "The instance getSecretOptions failed")) := by
  simp [waitRefreshPublicCertificate, hrec, herr, hst]

/-- Claim C1 (amended): the provisioning waiter returns success exactly
when some performed poll's refresh observes an error-free state label
other than `pre_activation` — observing `active` is one such case, but
under the closed-list policy every other non-`destroyed` label also
terminates the wait as success, so success is not equivalent to a poll
observing `active`; and when every poll observes `pre_activation`, the
caller-supplied deadline elapses and the waiter returns the timeout
result, which differs from every provisioning-failure (refresh-error)
result.  Proved for both resource waiters. -/
theorem waiter_success_iff_nonpending_poll_and_timeout_distinct
    (pollsI : Nat → GetSecretOutcome IAMCredentialsSecret)
    (pollsC : Nat → GetSecretOutcome PublicCertificate) (timeout : Nat) :
    (((waitForIbmSmIamCredentialsSecretCreate pollsI timeout).1.isSuccess = true) ↔
      (∃ k, k < (waitForIbmSmIamCredentialsSecretCreate pollsI timeout).2 ∧
        (waitRefreshIamCredentials (pollsI k)).okState ≠ none ∧
        (waitRefreshIamCredentials (pollsI k)).okState ≠ some "pre_activation")) ∧
    ((∀ k, (waitRefreshIamCredentials (pollsI k)).okState = some "pre_activation") →
      (waitForIbmSmIamCredentialsSecretCreate pollsI timeout).1 = WaitResult.timeoutErr ∧
      ∀ st e, (waitForIbmSmIamCredentialsSecretCreate pollsI timeout).1 ≠
        WaitResult.refreshErr st e) ∧
    (((waitForIbmSmPublicCertificateCreate pollsC timeout).1.isSuccess = true) ↔
      (∃ k, k < (waitForIbmSmPublicCertificateCreate pollsC timeout).2 ∧
        (waitRefreshPublicCertificate (pollsC k)).okState ≠ none ∧
        (waitRefreshPublicCertificate (pollsC k)).okState ≠ some "pre_activation")) ∧
    ((∀ k, (waitRefreshPublicCertificate (pollsC k)).okState = some "pre_activation") →
      (waitForIbmSmPublicCertificateCreate pollsC timeout).1 = WaitResult.timeoutErr ∧
      ∀ st e, (waitForIbmSmPublicCertificateCreate pollsC timeout).1 ≠
        WaitResult.refreshErr st e) := by
  refine ⟨?_, ?_, ?_, ?_⟩
  · have h := waitLoopAux_success_iff (fun n => waitRefreshIamCredentials (pollsI n))
      timeout timeout 0
    simpa [waitForIbmSmIamCredentialsSecretCreate] using h
  · intro hall
    have h : (waitForIbmSmIamCredentialsSecretCreate pollsI timeout).1 = WaitResult.timeoutErr :=
      waitLoopAux_timeout_of_all_pending _ timeout hall timeout 0
    refine ⟨h, ?_⟩
    intro st e
    rw [h]
    simp
  · have h := waitLoopAux_success_iff (fun n => waitRefreshPublicCertificate (pollsC n))
      timeout timeout 0
    simpa [waitForIbmSmPublicCertificateCreate] using h
  · intro hall
    have h : (waitForIbmSmPublicCertificateCreate pollsC timeout).1 = WaitResult.timeoutErr :=
      waitLoopAux_timeout_of_all_pending _ timeout hall timeout 0
    refine ⟨h, ?_⟩
    intro st e
    rw [h]
    simp

/-- Witness for the C1 theorem: an all-pending poll stream makes both
waiters end in the timeout result. -/
theorem waiter_success_iff_nonpending_poll_and_timeout_distinct_witness :
    (waitForIbmSmIamCredentialsSecretCreate pendingPollsI 1200).1 = WaitResult.timeoutErr ∧
    (waitForIbmSmPublicCertificateCreate pendingPollsC 1200).1 = WaitResult.timeoutErr := by
  have h := waiter_success_iff_nonpending_poll_and_timeout_distinct pendingPollsI pendingPollsC 1200
  exact ⟨(h.2.1 (fun k => rfl)).1, (h.2.2.2 (fun k => rfl)).1⟩

/-- Counterexample to claim C1 as stated: with every poll observing the
`suspended` label, the waiter returns success although no performed poll
observes the state label `active`. -/
theorem waiter_success_without_active_observed :
    ((waitForIbmSmIamCredentialsSecretCreate suspendedPollsI 1200).1.isSuccess = true) ∧
    (∀ k, k < (waitForIbmSmIamCredentialsSecretCreate suspendedPollsI 1200).2 →
      (waitRefreshIamCredentials (suspendedPollsI k)).okState ≠ some "active") := by
  decide

/-- Claim C2: a poll during the wait that returns a record whose state
label is neither `pre_activation` nor `destroyed` (for example
`suspended` or `deactivated`) terminates the wait as implicit success
carrying the fetched record, with no further polls.  Proved for both
resource waiters against the spec-modelled loop. -/
theorem waiter_implicit_success_on_other_labels
    (pollsI : Nat → GetSecretOutcome IAMCredentialsSecret)
    (pollsC : Nat → GetSecretOutcome PublicCertificate)
    (timeout kI kC : Nat)
    (objI : IAMCredentialsSecret) (respI : Option DetailedResponse) (stI : String)
    (hkI : kI * 5 < timeout)
    (hpendI : ∀ j, j < kI →
      (waitRefreshIamCredentials (pollsI j)).okState = some "pre_activation")
    (houtI : pollsI kI = { record := some objI, response := respI, err := none })
    (hstI : objI.stateDescription = some stI)
    (hstI1 : stI ≠ "pre_activation") (hstI2 : stI ≠ "destroyed")
    (objC : PublicCertificate) (respC : Option DetailedResponse) (stC : String)
    (hkC : kC * 5 < timeout)
    (hpendC : ∀ j, j < kC →
      (waitRefreshPublicCertificate (pollsC j)).okState = some "pre_activation")
    (houtC : pollsC kC = { record := some objC, response := respC, err := none })
    (hstC : objC.stateDescription = some stC)
    (hstC1 : stC ≠ "pre_activation") (hstC2 : stC ≠ "destroyed") :
    waitForIbmSmIamCredentialsSecretCreate pollsI timeout =
      (WaitResult.success (some objI), kI + 1) ∧
    waitForIbmSmPublicCertificateCreate pollsC timeout =
      (WaitResult.success (some objC), kC + 1) := by
  constructor
  · exact waitLoop_run_terminal_success _ timeout kI (some objI) stI hkI hpendI
      (by rw [houtI]
          exact waitRefreshIamCredentials_ok _ objI stI rfl rfl hstI hstI2) hstI1
  · exact waitLoop_run_terminal_success _ timeout kC (some objC) stC hkC hpendC
      (by rw [houtC]
          exact waitRefreshPublicCertificate_ok _ objC stC rfl rfl hstC hstC2) hstC1

/-- Witness for the C2 theorem at the suspended poll streams. -/
theorem waiter_implicit_success_on_other_labels_witness :
    waitForIbmSmIamCredentialsSecretCreate suspendedPollsI 1200 =
      (WaitResult.success (some suspendedSecretI), 1) ∧
    waitForIbmSmPublicCertificateCreate suspendedPollsC 1200 =
      (WaitResult.success (some suspendedSecretC), 1) :=
  waiter_implicit_success_on_other_labels suspendedPollsI suspendedPollsC 1200 0 0
    suspendedSecretI none "suspended" (by decide)
    (fun j hj => absurd hj (Nat.not_lt_zero j)) rfl rfl (by decide) (by decide)
    suspendedSecretC none "suspended" (by decide)
    (fun j hj => absurd hj (Nat.not_lt_zero j)) rfl rfl (by decide) (by decide)

/-- Claim C3: a poll observing the `destroyed` label terminates the wait
immediately — exactly `k + 1` polls are performed — with the
provisioning-failure error, even under a deadline that has not elapsed.
Proved for both resource waiters. -/
theorem waiter_destroyed_terminates_immediately
    (pollsI : Nat → GetSecretOutcome IAMCredentialsSecret)
    (pollsC : Nat → GetSecretOutcome PublicCertificate)
    (timeout kI kC : Nat)
    (objI : IAMCredentialsSecret) (respI : Option DetailedResponse)
    (hkI : kI * 5 < timeout)
    (hpendI : ∀ j, j < kI →
      (waitRefreshIamCredentials (pollsI j)).okState = some "pre_activation")
    (houtI : pollsI kI = { record := some objI, response := respI, err := none })
    (hstI : objI.stateDescription = some "destroyed")
    (objC : PublicCertificate) (respC : Option DetailedResponse)
    (hkC : kC * 5 < timeout)
    (hpendC : ∀ j, j < kC →
      (waitRefreshPublicCertificate (pollsC j)).okState = some "pre_activation")
    (houtC : pollsC kC = { record := some objC, response := respC, err := none })
    (hstC : objC.stateDescription = some "destroyed") :
    waitForIbmSmIamCredentialsSecretCreate pollsI timeout =
      (WaitResult.refreshErr "destroyed"
        (GoError.other "The instance getSecretOptions failed"), kI + 1) ∧
    waitForIbmSmPublicCertificateCreate pollsC timeout =
      (WaitResult.refreshErr "destroyed"
        (GoError.other "The instance getSecretOptions failed"), kC + 1) := by
  constructor
  · exact waitLoop_run_terminal_error _ timeout kI (some objI) "destroyed" _ hkI hpendI
      (by rw [houtI]
          exact waitRefreshIamCredentials_destroyed _ objI rfl rfl hstI)
  · exact waitLoop_run_terminal_error _ timeout kC (some objC) "destroyed" _ hkC hpendC
      (by rw [houtC]
          exact waitRefreshPublicCertificate_destroyed _ objC rfl rfl hstC)

/-- Witness for the C3 theorem at the destroyed poll streams. -/
theorem waiter_destroyed_terminates_immediately_witness :
    waitForIbmSmIamCredentialsSecretCreate destroyedPollsI 1200 =
      (WaitResult.refreshErr "destroyed"
        (GoError.other "The instance getSecretOptions failed"), 1) ∧
    waitForIbmSmPublicCertificateCreate destroyedPollsC 1200 =
      (WaitResult.refreshErr "destroyed"
        (GoError.other "The instance getSecretOptions failed"), 1) :=
  waiter_destroyed_terminates_immediately destroyedPollsI destroyedPollsC 1200 0 0
    destroyedSecretI none (by decide) (fun j hj => absurd hj (Nat.not_lt_zero j)) rfl rfl
    destroyedSecretC none (by decide) (fun j hj => absurd hj (Nat.not_lt_zero j)) rfl rfl

/-- Claim C4 (refuted — the code crashes): on a Get outcome whose error
is non-nil the returned record interface is nil, and each refresh
closure then panics at the concrete-type assertion, which the source
performs before the error check, so neither the 404 branch nor the
error-propagation branch ever runs. -/
theorem refresh_crashes_on_error_outcome (resp : Option DetailedResponse) (e : GoError) :
    waitRefreshIamCredentials { record := none, response := resp, err := some e } =
      RefreshOutcome.crash ∧
    waitRefreshPublicCertificate { record := none, response := resp, err := some e } =
      RefreshOutcome.crash :=
  ⟨rfl, rfl⟩

/-- Claim C9: on the poll-response sequence pre_activation,
pre_activation, active, the waiter performs exactly 3 polls and returns
the record fetched by the 3rd; its poll schedule is 0, 5, 10 seconds —
no delay before the first poll and the fixed 5-second minimum delay
between successive polls.  Proved for both resource waiters. -/
theorem waiter_three_polls_pre_pre_active
    (pollsI : Nat → GetSecretOutcome IAMCredentialsSecret)
    (pollsC : Nat → GetSecretOutcome PublicCertificate)
    (timeout : Nat) (htimeout : 10 < timeout)
    (o0 o1 o2 : IAMCredentialsSecret) (r0 r1 r2 : Option DetailedResponse)
    (h0 : pollsI 0 = { record := some o0, response := r0, err := none })
    (h0s : o0.stateDescription = some "pre_activation")
    (h1 : pollsI 1 = { record := some o1, response := r1, err := none })
    (h1s : o1.stateDescription = some "pre_activation")
    (h2 : pollsI 2 = { record := some o2, response := r2, err := none })
    (h2s : o2.stateDescription = some "active")
    (c0 c1 c2 : PublicCertificate) (s0 s1 s2 : Option DetailedResponse)
    (g0 : pollsC 0 = { record := some c0, response := s0, err := none })
    (g0s : c0.stateDescription = some "pre_activation")
    (g1 : pollsC 1 = { record := some c1, response := s1, err := none })
    (g1s : c1.stateDescription = some "pre_activation")
    (g2 : pollsC 2 = { record := some c2, response := s2, err := none })
    (g2s : c2.stateDescription = some "active") :
    (waitForIbmSmIamCredentialsSecretCreate pollsI timeout =
       (WaitResult.success (some o2), 3) ∧
     runPollTimes 0 5 (waitForIbmSmIamCredentialsSecretCreate pollsI timeout).2 =
       [0, 5, 10]) ∧
    (waitForIbmSmPublicCertificateCreate pollsC timeout =
       (WaitResult.success (some c2), 3) ∧
     runPollTimes 0 5 (waitForIbmSmPublicCertificateCreate pollsC timeout).2 =
       [0, 5, 10]) := by
  have hpendI : ∀ j, j < 2 →
      (waitRefreshIamCredentials (pollsI j)).okState = some "pre_activation" := by
    intro j hj
    have hcase : j = 0 ∨ j = 1 := by omega
    rcases hcase with h | h <;> subst h
    · rw [h0, waitRefreshIamCredentials_ok _ o0 "pre_activation" rfl rfl h0s (by decide)]
      rfl
    · rw [h1, waitRefreshIamCredentials_ok _ o1 "pre_activation" rfl rfl h1s (by decide)]
      rfl
  have hpendC : ∀ j, j < 2 →
      (waitRefreshPublicCertificate (pollsC j)).okState = some "pre_activation" := by
    intro j hj
    have hcase : j = 0 ∨ j = 1 := by omega
    rcases hcase with h | h <;> subst h
    · rw [g0, waitRefreshPublicCertificate_ok _ c0 "pre_activation" rfl rfl g0s (by decide)]
      rfl
    · rw [g1, waitRefreshPublicCertificate_ok _ c1 "pre_activation" rfl rfl g1s (by decide)]
      rfl
  have hrunI : waitForIbmSmIamCredentialsSecretCreate pollsI timeout =
      (WaitResult.success (some o2), 3) :=
    waitLoop_run_terminal_success _ timeout 2 (some o2) "active" (by omega) hpendI
      (by rw [h2]
          exact waitRefreshIamCredentials_ok _ o2 "active" rfl rfl h2s (by decide))
      (by decide)
  have hrunC : waitForIbmSmPublicCertificateCreate pollsC timeout =
      (WaitResult.success (some c2), 3) :=
    waitLoop_run_terminal_success _ timeout 2 (some c2) "active" (by omega) hpendC
      (by rw [g2]
          exact waitRefreshPublicCertificate_ok _ c2 "active" rfl rfl g2s (by decide))
      (by decide)
  exact ⟨⟨hrunI, by rw [hrunI]; rfl⟩, ⟨hrunC, by rw [hrunC]; rfl⟩⟩

/-- Witness for the C9 theorem at the staged poll streams. -/
theorem waiter_three_polls_pre_pre_active_witness :
    (waitForIbmSmIamCredentialsSecretCreate stagedPollsI 1200 =
       (WaitResult.success (some activeSecretI), 3) ∧
     runPollTimes 0 5 (waitForIbmSmIamCredentialsSecretCreate stagedPollsI 1200).2 =
       [0, 5, 10]) ∧
    (waitForIbmSmPublicCertificateCreate stagedPollsC 1200 =
       (WaitResult.success (some activeSecretC), 3) ∧
     runPollTimes 0 5 (waitForIbmSmPublicCertificateCreate stagedPollsC 1200).2 =
       [0, 5, 10]) :=
  waiter_three_polls_pre_pre_active stagedPollsI stagedPollsC 1200 (by decide)
    pendingSecretI pendingSecretI activeSecretI none none none rfl rfl rfl rfl rfl rfl
    pendingSecretC pendingSecretC activeSecretC none none none rfl rfl rfl rfl rfl rfl

/-- Claim C10: a composite key built from three non-empty slash-free
segments is parsed positionally back into exactly those segments by the
split shared by Read, Update and Delete. -/
theorem parse_composite_id_recovers_segments (r i s : String)
    (hr : r ≠ "") (hi : i ≠ "") (hs : s ≠ "")
    (hrs : '/' ∉ r.data) (his : '/' ∉ i.data) (hss : '/' ∉ s.data) :
    parseCompositeId (r ++ "/" ++ i ++ "/" ++ s) = some (r, i, s) := by
  have hdata : (r ++ "/" ++ i ++ "/" ++ s).data =
      [ '/' ].intercalate [r.data, i.data, s.data] := by
    simp [String.data_append, List.intercalate]
  have hmem : ∀ l ∈ [r.data, i.data, s.data], '/' ∉ l := by
    intro l hl
    simp only [List.mem_cons, List.not_mem_nil, or_false] at hl
    rcases hl with h | h | h <;> subst h <;> assumption
  have hsplit := List.splitOn_intercalate [r.data, i.data, s.data] '/' hmem (by simp)
  simp only [parseCompositeId, goSplit]
  rw [hdata, hsplit]
  rfl

/-- Witness for the C10 theorem at the spec's concrete key. -/
theorem parse_composite_id_recovers_segments_witness :
    parseCompositeId "us-south/abc-123/sec-789" =
      some ("us-south", "abc-123", "sec-789") :=
  parse_composite_id_recovers_segments "us-south" "abc-123" "sec-789"
    (by decide) (by decide) (by decide) (by decide) (by decide) (by decide)

/-- Claim C5: a Read whose Get call fails with a 404 response clears the
stored identity to the empty string, applies no fields and returns no
error; a Read whose Get call fails with any other error surfaces that
error and applies no fields.  Proved for both resources. -/
theorem read_clears_identity_on_404_and_surfaces_other_errors
    (oldId : String) (pr : String × String × String)
    (hparse : parseCompositeId oldId = some pr)
    (getI : GetSecretOutcome IAMCredentialsSecret)
    (getC : GetSecretOutcome PublicCertificate)
    (setOk : String → Bool) (eI eC : GoError)
    (hI : getI.err = some eI) (hC : getC.err = some eC) :
    ((∃ resp, getI.response = some resp ∧ resp.statusCode = 404) →
      resourceIbmSmIamCredentialsSecretRead oldId getI setOk =
        some { newId := "", applied := [], error := none }) ∧
    ((∀ resp, getI.response = some resp → resp.statusCode ≠ 404) →
      resourceIbmSmIamCredentialsSecretRead oldId getI setOk =
        some { newId := oldId, applied := [],
               error := some ("GetSecretWithContext failed " ++ eI.message) }) ∧
    ((∃ resp, getC.response = some resp ∧ resp.statusCode = 404) →
      resourceIbmSmPublicCertificateRead oldId getC setOk =
        some { newId := "", applied := [], error := none }) ∧
    ((∀ resp, getC.response = some resp → resp.statusCode ≠ 404) →
      resourceIbmSmPublicCertificateRead oldId getC setOk =
        some { newId := oldId, applied := [],
               error := some ("GetSecretWithContext failed " ++ eC.message) }) := by
  refine ⟨?_, ?_, ?_, ?_⟩
  · rintro ⟨resp, hresp, h404⟩
    simp [resourceIbmSmIamCredentialsSecretRead, hparse, hI, hresp, h404]
  · intro hno
    rcases hresp : getI.response with - | resp
    · simp [resourceIbmSmIamCredentialsSecretRead, hparse, hI, hresp]
    · have hne := hno resp hresp
      simp [resourceIbmSmIamCredentialsSecretRead, hparse, hI, hresp, hne]
  · rintro ⟨resp, hresp, h404⟩
    simp [resourceIbmSmPublicCertificateRead, hparse, hC, hresp, h404]
  · intro hno
    rcases hresp : getC.response with - | resp
    · simp [resourceIbmSmPublicCertificateRead, hparse, hC, hresp]
    · have hne := hno resp hresp
      simp [resourceIbmSmPublicCertificateRead, hparse, hC, hresp, hne]

/-- Witness for the C5 theorem at a concrete 404 outcome. -/
theorem read_clears_identity_on_404_and_surfaces_other_errors_witness :
    resourceIbmSmIamCredentialsSecretRead "us-south/abc-123/sec-789"
      { record := none, response := some { statusCode := 404 },
        err := some (GoError.requestFailure 404 "nf") } (fun _ => true) =
      some { newId := "", applied := [], error := none } := by
  have h := read_clears_identity_on_404_and_surfaces_other_errors
    "us-south/abc-123/sec-789" ("us-south", "abc-123", "sec-789") (by decide)
    { record := none, response := some { statusCode := 404 },
      err := some (GoError.requestFailure 404 "nf") }
    { record := none, response := some { statusCode := 404 },
      err := some (GoError.requestFailure 404 "nf") }
    (fun _ => true) (GoError.requestFailure 404 "nf") (GoError.requestFailure 404 "nf")
    rfl rfl
  exact h.1 ⟨{ statusCode := 404 }, rfl, rfl⟩

/-- On a crash-free step sequence the field phase applies exactly the
fields up to and including the first rejected guarded set and returns
that step's recorded error message, or applies every field with no
error when no guarded set fails. -/
theorem runFieldSteps_eq_of_no_crash (setOk : String → Bool) :
    ∀ steps : List FieldStep, FieldStep.crash ∉ steps →
      runFieldSteps setOk steps =
        some (match firstFieldFailure setOk steps with
              | some (lbl, pre) => (pre, some ("Error setting " ++ lbl))
              | none => (stepFields steps, none)) := by
  intro steps
  induction steps with
  | nil => intro h; rfl
  | cons s rest ih =>
    intro h
    have hrest : FieldStep.crash ∉ rest := fun hc => h (List.mem_cons_of_mem _ hc)
    cases s with
    | guarded f lbl =>
      by_cases hok : setOk f
      · simp only [runFieldSteps, firstFieldFailure, stepFields, if_pos hok, ih hrest]
        rcases hf : firstFieldFailure setOk rest with - | ⟨l, pre⟩ <;> simp [hf]
      · simp only [runFieldSteps, firstFieldFailure, if_neg hok]
    | unguarded f =>
      simp only [runFieldSteps, firstFieldFailure, stepFields, ih hrest]
      rcases hf : firstFieldFailure setOk rest with - | ⟨l, pre⟩ <;> simp [hf]
    | crash => exact absurd (List.mem_cons_self _ _) h

/-- A non-nil rotation interface makes the IAM-credentials read's step
sequence crash-free. -/
theorem iamReadSteps_no_crash (s : IAMCredentialsSecret) (rp : RotationPolicy)
    (h : s.rotation = some rp) : FieldStep.crash ∉ iamReadSteps s := by
  intro hc
  rcases h1 : s.customMetadata with - | cm <;> rcases h2 : s.labels with - | lb <;>
    rcases h3 : s.accessGroups with - | ag <;>
    by_cases h4 : (optEntry "auto_rotate" (rp.autoRotate.map MapVal.boolV) ++
        optEntry "interval" (rp.interval.map MapVal.intV) ++
        optEntry "unit" (rp.unit.map MapVal.strV) ++
        optEntry "rotate_keys" (rp.rotateKeys.map MapVal.boolV)).length > 0 <;>
    simp [iamReadSteps, h, h1, h2, h3, h4,
      resourceIbmSmIamCredentialsSecretRotationPolicyToMap] at hc

/-- A non-nil rotation interface and non-nil validity dates make the
public-certificate read's step sequence crash-free. -/
theorem certReadSteps_no_crash (s : PublicCertificate) (rp : RotationPolicy)
    (h : s.rotation = some rp)
    (hv : ∀ v, s.validity = some v →
      ∃ nb na, v.notBefore = some nb ∧ v.notAfter = some na) :
    FieldStep.crash ∉ certReadSteps s := by
  intro hc
  rcases h5 : s.validity with - | v
  · rcases h1 : s.customMetadata with - | cm <;> rcases h2 : s.labels with - | lb <;>
      rcases h3 : s.altNames with - | an <;> rcases h4 : s.issuanceInfo with - | ii <;>
      simp [certReadSteps, h, h1, h2, h3, h4, h5,
        resourceIbmSmPublicCertificateRotationPolicyToMap] at hc
  · obtain ⟨nb, na, hnb, hna⟩ := hv v h5
    rcases h1 : s.customMetadata with - | cm <;> rcases h2 : s.labels with - | lb <;>
      rcases h3 : s.altNames with - | an <;> rcases h4 : s.issuanceInfo with - | ii <;>
      simp [certReadSteps, h, h1, h2, h3, h4, h5, hnb, hna,
        resourceIbmSmPublicCertificateRotationPolicyToMap,
        resourceIbmSmPublicCertificateCertificateValidityToMap] at hc

/-- Claim C7 (amended): after a successful fetch, each read executes its
`d.Set` sequence in order and aborts at the first failing checked set,
applying exactly the fields up to and including it and returning that
step's recorded error message — which names the failed field except for
`ttl` and `api_key` in the IAM-credentials read, whose messages name
`signing_algorithm` — while a failure of the unchecked `custom_metadata`
set is ignored and does not abort the read.  Proved for both resources. -/
theorem read_aborts_at_first_guarded_set_failure
    (oldId : String) (pr : String × String × String)
    (hparse : parseCompositeId oldId = some pr) (setOk : String → Bool)
    (sI : IAMCredentialsSecret) (rpI : RotationPolicy) (hrI : sI.rotation = some rpI)
    (getI : GetSecretOutcome IAMCredentialsSecret)
    (hgIr : getI.record = some sI) (hgIe : getI.err = none)
    (sC : PublicCertificate) (rpC : RotationPolicy) (hrC : sC.rotation = some rpC)
    (hvC : ∀ v, sC.validity = some v →
      ∃ nb na, v.notBefore = some nb ∧ v.notAfter = some na)
    (getC : GetSecretOutcome PublicCertificate)
    (hgCr : getC.record = some sC) (hgCe : getC.err = none) :
    resourceIbmSmIamCredentialsSecretRead oldId getI setOk =
      some { newId := oldId,
             applied := match firstFieldFailure setOk (iamReadSteps sI) with
                        | some (_, pre) => pre
                        | none => stepFields (iamReadSteps sI),
             error := (firstFieldFailure setOk (iamReadSteps sI)).map
                        fun p => "Error setting " ++ p.1 } ∧
    resourceIbmSmPublicCertificateRead oldId getC setOk =
      some { newId := oldId,
             applied := match firstFieldFailure setOk (certReadSteps sC) with
                        | some (_, pre) => pre
                        | none => stepFields (certReadSteps sC),
             error := (firstFieldFailure setOk (certReadSteps sC)).map
                        fun p => "Error setting " ++ p.1 } := by
  constructor
  · have hrun := runFieldSteps_eq_of_no_crash setOk (iamReadSteps sI)
      (iamReadSteps_no_crash sI rpI hrI)
    simp only [resourceIbmSmIamCredentialsSecretRead, hparse, hgIe, hgIr, hrun]
    rcases hf : firstFieldFailure setOk (iamReadSteps sI) with - | ⟨l, pre⟩ <;> simp [hf]
  · have hrun := runFieldSteps_eq_of_no_crash setOk (certReadSteps sC)
      (certReadSteps_no_crash sC rpC hrC hvC)
    simp only [resourceIbmSmPublicCertificateRead, hparse, hgCe, hgCr, hrun]
    rcases hf : firstFieldFailure setOk (certReadSteps sC) with - | ⟨l, pre⟩ <;> simp [hf]

/-- Witness for the C7 theorem: a store rejecting `ttl` makes the
IAM-credentials read abort with the source's (misnamed)
`signing_algorithm` message. -/
theorem read_aborts_at_first_guarded_set_failure_witness :
    resourceIbmSmIamCredentialsSecretRead "us-south/abc-123/sec-789" cmGetI
      (fun f => f != "ttl") =
      some { newId := "us-south/abc-123/sec-789",
             applied := ["secret_id", "instance_id", "region", "created_by", "created_at",
                         "crn", "custom_metadata", "description", "downloaded", "locks_total",
                         "name", "secret_group_id", "secret_type", "state",
                         "state_description", "updated_at", "versions_total", "ttl"],
             error := some "Error setting signing_algorithm" } := by
  have h := read_aborts_at_first_guarded_set_failure
    "us-south/abc-123/sec-789" ("us-south", "abc-123", "sec-789") (by decide)
    (fun f => f != "ttl")
    cmSecretI {} rfl cmGetI rfl rfl
    { rotation := some {} } {} rfl
    (by intro v hv; cases hv)
    { record := some { rotation := some {} }, response := none, err := none } rfl rfl
  have h1 := h.1
  rw [h1]
  rfl

/-- Counterexample to claim C7 as stated: when the configuration store
rejects the `custom_metadata` value, the IAM-credentials read ignores
the failure — it returns no error and keeps setting the remaining
fields — instead of aborting with an error. -/
theorem read_ignores_custom_metadata_set_failure :
    (cmSetOk "custom_metadata" = false) ∧
    ((resourceIbmSmIamCredentialsSecretRead "us-south/abc-123/sec-789" cmGetI cmSetOk).map
        ReadOutcome.error = some none) ∧
    ((resourceIbmSmIamCredentialsSecretRead "us-south/abc-123/sec-789" cmGetI cmSetOk).map
        (fun o => o.applied.contains "custom_metadata") = some true) := by
  decide

/-- Looking up a key skips an optional entry with a different key. -/
theorem lookup_optEntry_skip (a k : String) (v : Option MapVal)
    (rest : List (String × MapVal)) (h : (a == k) = false) :
    List.lookup a (optEntry k v ++ rest) = List.lookup a rest := by
  cases v <;> simp [optEntry, List.lookup, h]

/-- Looking up the key of a present optional entry returns its value. -/
theorem lookup_optEntry_self (k : String) (v : MapVal) (rest : List (String × MapVal)) :
    List.lookup k (optEntry k (some v) ++ rest) = some v := by
  simp [optEntry, List.lookup]

/-- Looking up a key in a lone optional entry with a different key. -/
theorem lookup_optEntry_single (a k : String) (v : Option MapVal) (h : (a == k) = false) :
    List.lookup a (optEntry k v) = none := by
  cases v <;> simp [optEntry, List.lookup, h]

/-- `stepFields` distributes over concatenation. -/
theorem stepFields_append (l1 l2 : List FieldStep) :
    stepFields (l1 ++ l2) = stepFields l1 ++ stepFields l2 := by
  induction l1 with
  | nil => rfl
  | cons s rest ih => cases s <;> simp [stepFields, ih]

set_option maxHeartbeats 1600000 in
/-- Claim C8 (amended): a nil remote list is omitted from the output,
and a present remote list — even an empty one — is written and mapped
1:1 preserving source order: the `challenges` entry of the issuance-info
map exists exactly when the remote challenge slice is non-nil and is its
ordered elementwise image, the `labels` field is set by the
IAM-credentials read exactly when the remote labels slice is non-nil,
and the `alt_names` field is set by the certificate read exactly when
the remote alt-names slice is non-nil. -/
theorem nil_lists_omitted_present_lists_mapped_in_order
    (model : CertificateIssuanceInfo) (sI : IAMCredentialsSecret) (sC : PublicCertificate) :
    (List.lookup "challenges"
        (resourceIbmSmPublicCertificateCertificateIssuanceInfoToMap model) =
      model.challenges.map fun cs =>
        MapVal.challengeListV (cs.map resourceIbmSmPublicCertificateChallengeResourceToMap)) ∧
    (("labels" ∈ stepFields (iamReadSteps sI)) ↔ sI.labels ≠ none) ∧
    (("alt_names" ∈ stepFields (certReadSteps sC)) ↔ sC.altNames ≠ none) := by
  refine ⟨?_, ?_, ?_⟩
  · simp only [resourceIbmSmPublicCertificateCertificateIssuanceInfoToMap, List.append_assoc]
    rw [lookup_optEntry_skip _ _ _ _ (by decide)]
    rcases hch : model.challenges with - | cs
    · simp only [Option.map_none']
      rw [show optEntry "challenges" none = [] from rfl, List.nil_append]
      rw [lookup_optEntry_skip _ _ _ _ (by decide), lookup_optEntry_skip _ _ _ _ (by decide),
        lookup_optEntry_skip _ _ _ _ (by decide), lookup_optEntry_skip _ _ _ _ (by decide),
        lookup_optEntry_skip _ _ _ _ (by decide)]
      exact lookup_optEntry_single _ _ _ (by decide)
    · simp only [Option.map_some']
      exact lookup_optEntry_self _ _ _
  · rcases h1 : sI.customMetadata with - | cm <;> rcases h2 : sI.labels with - | lb <;>
      rcases h3 : sI.accessGroups with - | ag <;> rcases h4 : sI.rotation with - | rp <;>
      simp only [iamReadSteps, h1, h2, h3, h4,
        resourceIbmSmIamCredentialsSecretRotationPolicyToMap] <;>
      (try split_ifs) <;>
      simp only [ne_eq, Option.some_ne_none, not_false_eq_true, iff_true, eq_self_iff_true,
        not_true, iff_false] <;>
      decide
  · rcases h5 : sC.validity with - | v
    · rcases h1 : sC.customMetadata with - | cm <;> rcases h2 : sC.labels with - | lb <;>
        rcases h3 : sC.altNames with - | an <;> rcases h4 : sC.issuanceInfo with - | ii <;>
        rcases h6 : sC.rotation with - | rp <;>
        simp only [certReadSteps, h1, h2, h3, h4, h5, h6,
          resourceIbmSmPublicCertificateRotationPolicyToMap] <;>
        simp only [ne_eq, Option.some_ne_none, not_false_eq_true, iff_true, eq_self_iff_true,
          not_true, iff_false] <;>
        decide
    · rcases hvm : resourceIbmSmPublicCertificateCertificateValidityToMap v with - | vm <;>
        rcases h1 : sC.customMetadata with - | cm <;> rcases h2 : sC.labels with - | lb <;>
        rcases h3 : sC.altNames with - | an <;> rcases h4 : sC.issuanceInfo with - | ii <;>
        rcases h6 : sC.rotation with - | rp <;>
        simp only [certReadSteps, h1, h2, h3, h4, h5, h6, hvm,
          resourceIbmSmPublicCertificateRotationPolicyToMap] <;>
        simp only [ne_eq, Option.some_ne_none, not_false_eq_true, iff_true, eq_self_iff_true,
          not_true, iff_false] <;>
        decide

/-- Counterexample to claim C8 as stated: a present but empty remote
challenge list is written to the output as an empty sequence under the
`challenges` key rather than omitted; likewise a present but empty
labels slice is set by the IAM-credentials read. -/
theorem empty_lists_written_not_omitted :
    (List.lookup "challenges"
        (resourceIbmSmPublicCertificateCertificateIssuanceInfoToMap emptyChallengesInfo) =
      some (MapVal.challengeListV [])) ∧
    ("labels" ∈ stepFields (iamReadSteps emptyLabelsSecretI)) := by
  exact ⟨rfl, by decide⟩

/-- Characterization of the IAM-credentials Update: the remote patch
call and its contents are driven exactly by the per-field change
flags. -/
theorem iamUpdate_char (cfg : TfUpdateConfig)
    (hrot : cfg.hasChange "rotation" = true → cfg.rotation ≠ []) :
    ((cfg.hasChange "name" = false ∧ cfg.hasChange "description" = false ∧
      cfg.hasChange "labels" = false ∧ cfg.hasChange "custom_metadata" = false ∧
      cfg.hasChange "ttl" = false ∧ cfg.hasChange "rotation" = false) →
      resourceIbmSmIamCredentialsSecretUpdate cfg = UpdateOutcome.noCall) ∧
    (∀ p, resourceIbmSmIamCredentialsSecretUpdate cfg = UpdateOutcome.patchCall p →
      p.name.isSome = cfg.hasChange "name" ∧
      p.description.isSome = cfg.hasChange "description" ∧
      p.labels.isSome = cfg.hasChange "labels" ∧
      p.customMetadata.isSome = cfg.hasChange "custom_metadata" ∧
      p.ttl.isSome = cfg.hasChange "ttl" ∧
      p.rotation.isSome = cfg.hasChange "rotation") ∧
    ((cfg.hasChange "name" = true ∨ cfg.hasChange "description" = true ∨
      cfg.hasChange "labels" = true ∨ cfg.hasChange "custom_metadata" = true ∨
      cfg.hasChange "ttl" = true ∨ cfg.hasChange "rotation" = true) →
      ∃ p, resourceIbmSmIamCredentialsSecretUpdate cfg = UpdateOutcome.patchCall p) := by
  cases h6 : cfg.hasChange "rotation" with
  | true =>
    rcases hR : cfg.rotation with - | ⟨rm, rest⟩
    · exact absurd hR (hrot h6)
    · cases h1 : cfg.hasChange "name" <;> cases h2 : cfg.hasChange "description" <;>
        cases h3 : cfg.hasChange "labels" <;> cases h4 : cfg.hasChange "custom_metadata" <;>
        cases h5 : cfg.hasChange "ttl" <;>
        simp [resourceIbmSmIamCredentialsSecretUpdate, h1, h2, h3, h4, h5, h6, hR]
  | false =>
    cases h1 : cfg.hasChange "name" <;> cases h2 : cfg.hasChange "description" <;>
      cases h3 : cfg.hasChange "labels" <;> cases h4 : cfg.hasChange "custom_metadata" <;>
      cases h5 : cfg.hasChange "ttl" <;>
      simp [resourceIbmSmIamCredentialsSecretUpdate, h1, h2, h3, h4, h5, h6]

/-- Characterization of the public-certificate Update (no TTL among the
tracked fields). -/
theorem certUpdate_char (cfg : TfUpdateConfig)
    (hrot : cfg.hasChange "rotation" = true → cfg.rotation ≠ []) :
    ((cfg.hasChange "name" = false ∧ cfg.hasChange "description" = false ∧
      cfg.hasChange "labels" = false ∧ cfg.hasChange "custom_metadata" = false ∧
      cfg.hasChange "rotation" = false) →
      resourceIbmSmPublicCertificateUpdate cfg = UpdateOutcome.noCall) ∧
    (∀ p, resourceIbmSmPublicCertificateUpdate cfg = UpdateOutcome.patchCall p →
      p.name.isSome = cfg.hasChange "name" ∧
      p.description.isSome = cfg.hasChange "description" ∧
      p.labels.isSome = cfg.hasChange "labels" ∧
      p.customMetadata.isSome = cfg.hasChange "custom_metadata" ∧
      p.rotation.isSome = cfg.hasChange "rotation") ∧
    ((cfg.hasChange "name" = true ∨ cfg.hasChange "description" = true ∨
      cfg.hasChange "labels" = true ∨ cfg.hasChange "custom_metadata" = true ∨
      cfg.hasChange "rotation" = true) →
      ∃ p, resourceIbmSmPublicCertificateUpdate cfg = UpdateOutcome.patchCall p) := by
  cases h5 : cfg.hasChange "rotation" with
  | true =>
    rcases hR : cfg.rotation with - | ⟨rm, rest⟩
    · exact absurd hR (hrot h5)
    · cases h1 : cfg.hasChange "name" <;> cases h2 : cfg.hasChange "description" <;>
        cases h3 : cfg.hasChange "labels" <;> cases h4 : cfg.hasChange "custom_metadata" <;>
        simp [resourceIbmSmPublicCertificateUpdate, h1, h2, h3, h4, h5, hR]
  | false =>
    cases h1 : cfg.hasChange "name" <;> cases h2 : cfg.hasChange "description" <;>
      cases h3 : cfg.hasChange "labels" <;> cases h4 : cfg.hasChange "custom_metadata" <;>
      simp [resourceIbmSmPublicCertificateUpdate, h1, h2, h3, h4, h5]

/-- Claim C6: an Update in which no tracked field changed issues zero
remote patch calls; and whenever some tracked field changed, exactly one
patch call is issued whose patch contains precisely the changed fields
(the tracked fields are name, description, labels, custom_metadata, ttl
and rotation for IAM credentials, and the same minus ttl for public
certificates). -/
theorem update_issues_patch_exactly_for_changed_fields
    (cfgI cfgC : TfUpdateConfig)
    (hrotI : cfgI.hasChange "rotation" = true → cfgI.rotation ≠ [])
    (hrotC : cfgC.hasChange "rotation" = true → cfgC.rotation ≠ []) :
    (((cfgI.hasChange "name" = false ∧ cfgI.hasChange "description" = false ∧
       cfgI.hasChange "labels" = false ∧ cfgI.hasChange "custom_metadata" = false ∧
       cfgI.hasChange "ttl" = false ∧ cfgI.hasChange "rotation" = false) →
       resourceIbmSmIamCredentialsSecretUpdate cfgI = UpdateOutcome.noCall) ∧
     (∀ p, resourceIbmSmIamCredentialsSecretUpdate cfgI = UpdateOutcome.patchCall p →
       p.name.isSome = cfgI.hasChange "name" ∧
       p.description.isSome = cfgI.hasChange "description" ∧
       p.labels.isSome = cfgI.hasChange "labels" ∧
       p.customMetadata.isSome = cfgI.hasChange "custom_metadata" ∧
       p.ttl.isSome = cfgI.hasChange "ttl" ∧
       p.rotation.isSome = cfgI.hasChange "rotation") ∧
     ((cfgI.hasChange "name" = true ∨ cfgI.hasChange "description" = true ∨
       cfgI.hasChange "labels" = true ∨ cfgI.hasChange "custom_metadata" = true ∨
       cfgI.hasChange "ttl" = true ∨ cfgI.hasChange "rotation" = true) →
       ∃ p, resourceIbmSmIamCredentialsSecretUpdate cfgI = UpdateOutcome.patchCall p)) ∧
    (((cfgC.hasChange "name" = false ∧ cfgC.hasChange "description" = false ∧
       cfgC.hasChange "labels" = false ∧ cfgC.hasChange "custom_metadata" = false ∧
       cfgC.hasChange "rotation" = false) →
       resourceIbmSmPublicCertificateUpdate cfgC = UpdateOutcome.noCall) ∧
     (∀ p, resourceIbmSmPublicCertificateUpdate cfgC = UpdateOutcome.patchCall p →
       p.name.isSome = cfgC.hasChange "name" ∧
       p.description.isSome = cfgC.hasChange "description" ∧
       p.labels.isSome = cfgC.hasChange "labels" ∧
       p.customMetadata.isSome = cfgC.hasChange "custom_metadata" ∧
       p.rotation.isSome = cfgC.hasChange "rotation") ∧
     ((cfgC.hasChange "name" = true ∨ cfgC.hasChange "description" = true ∨
       cfgC.hasChange "labels" = true ∨ cfgC.hasChange "custom_metadata" = true ∨
       cfgC.hasChange "rotation" = true) →
       ∃ p, resourceIbmSmPublicCertificateUpdate cfgC = UpdateOutcome.patchCall p)) :=
  ⟨iamUpdate_char cfgI hrotI, certUpdate_char cfgC hrotC⟩

/-- Witness for the C6 theorem: with no tracked field changed, neither
Update issues a remote patch call. -/
theorem update_issues_patch_exactly_for_changed_fields_witness :
    resourceIbmSmIamCredentialsSecretUpdate { hasChange := fun _ => false } =
      UpdateOutcome.noCall ∧
    resourceIbmSmPublicCertificateUpdate { hasChange := fun _ => false } =
      UpdateOutcome.noCall := by
  have h := update_issues_patch_exactly_for_changed_fields
    { hasChange := fun _ => false } { hasChange := fun _ => false }
    (fun hc => nomatch hc) (fun hc => nomatch hc)
  exact ⟨h.1.1 ⟨rfl, rfl, rfl, rfl, rfl, rfl⟩, h.2.1 ⟨rfl, rfl, rfl, rfl, rfl⟩⟩
